import Mathlib

/-!
Verification of the contact-management core of
`HW_Web_13_1_emal_verification_FastAPI`.

Shallow embedding: the SQLAlchemy-backed repository functions in
`src/repository/contacts.py` and `src/repository/users.py`, and the search
route handlers in `src/routes/search.py`, are modelled as pure Lean
functions over an explicit database state (a list of rows plus an
auto-increment counter).  Python `None` becomes `Option.none`; a Python
runtime exception (e.g. `AttributeError` from attribute access on `None`)
becomes `Except.error`.
-/

namespace ContactsApp

/-- A calendar date, as Python's `datetime.date`: year, month (1..12),
day (1..31). -/
structure PyDate where
  year : Nat
  month : Nat
  day : Nat
deriving DecidableEq, Repr

/-- A row of the `users` table (`src/database/models.py`, fields as used by
`src/repository/users.py`). -/
structure UserRow where
  id : Nat
  email : String
  password : String
  refresh_token : Option String
  password_reset_token : Option String
  confirmed : Bool
  avatar : Option String
deriving DecidableEq, Repr

/-- A row of the `contacts` table: owner foreign key plus the seven
mutable contact fields. -/
structure Contact where
  id : Nat
  user_id : Nat
  firstname : String
  lastname : String
  email : String
  phone : String
  birthday : PyDate
  additional_info : String
  is_favorite : Bool
deriving DecidableEq, Repr

/-- The `ContactModel` pydantic schema (`src/schemas.py`): the seven
mutable fields sent by the client; `id` and `user_id` are never part of
the request body. -/
structure ContactModel where
  firstname : String
  lastname : String
  email : String
  phone : String
  birthday : PyDate
  additional_info : String
  is_favorite : Bool
deriving DecidableEq, Repr

/-- The `ContactFavoriteModel` pydantic schema: just the favorite flag. -/
structure ContactFavoriteModel where
  is_favorite : Bool
deriving DecidableEq, Repr

/-- The contacts table together with the auto-increment primary-key
counter the relational store maintains. -/
structure ContactsDB where
  contacts : List Contact
  next_id : Nat
deriving DecidableEq, Repr

/-- The users table. -/
structure UsersDB where
  users : List UserRow
deriving DecidableEq, Repr

/-- Well-formedness the relational store guarantees: every primary key
already handed out is below the auto-increment counter, and primary keys
are unique across rows. -/
def ContactsDB.WF (db : ContactsDB) : Prop :=
  (∀ c ∈ db.contacts, c.id < db.next_id) ∧ (db.contacts.map Contact.id).Nodup

instance (db : ContactsDB) : Decidable db.WF := by
  unfold ContactsDB.WF; infer_instance

/-! ### `src/repository/contacts.py` -/

/-- Embedding of `get_contact_by_id(user, contact_id, db)`:
`db.query(Contact).filter(and_(Contact.user_id == user.id, Contact.id == contact_id)).first()`. -/
def get_contact_by_id (user : UserRow) (contact_id : Nat) (db : ContactsDB) :
    Option Contact :=
  db.contacts.find? (fun c => c.user_id == user.id && c.id == contact_id)

/-- Embedding of `get_contacts(user, limit, offset, db)`: the owner's rows, windowed by
offset then limit (SQL applies OFFSET before LIMIT regardless of call
order). -/
def get_contacts (user : UserRow) (limit offset : Nat) (db : ContactsDB) :
    List Contact :=
  ((db.contacts.filter (fun c => c.user_id == user.id)).drop offset).take limit

/-- Embedding of `create(user, body, db)`: `Contact(**body.dict(), user_id=user.id)`,
insert, commit, refresh.  The refreshed row carries the generated primary
key. -/
def create (user : UserRow) (body : ContactModel) (db : ContactsDB) :
    Contact × ContactsDB :=
  let c : Contact :=
    { id := db.next_id
      user_id := user.id
      firstname := body.firstname
      lastname := body.lastname
      email := body.email
      phone := body.phone
      birthday := body.birthday
      additional_info := body.additional_info
      is_favorite := body.is_favorite }
  (c, { contacts := db.contacts ++ [c], next_id := db.next_id + 1 })

/-- Embedding of `update(user, contact_id, body, db)`: fetch via `get_contact_by_id`;
if found, overwrite the seven mutable fields and commit; return the
(possibly `None`) contact.  The commit writes the mutated row back by
primary key. -/
def update (user : UserRow) (contact_id : Nat) (body : ContactModel)
    (db : ContactsDB) : Option Contact × ContactsDB :=
  match get_contact_by_id user contact_id db with
  | none => (none, db)
  | some c =>
    let c' : Contact :=
      { c with
        firstname := body.firstname
        lastname := body.lastname
        email := body.email
        phone := body.phone
        birthday := body.birthday
        additional_info := body.additional_info
        is_favorite := body.is_favorite }
    (some c',
      { db with contacts := db.contacts.map (fun x => if x.id == c.id then c' else x) })

/-- Embedding of `remove(user, contact_id, db)`: fetch via `get_contact_by_id`; if
found, delete the row (by primary key) and commit; return the snapshot. -/
def remove (user : UserRow) (contact_id : Nat) (db : ContactsDB) :
    Option Contact × ContactsDB :=
  match get_contact_by_id user contact_id db with
  | none => (none, db)
  | some c =>
    (some c, { db with contacts := db.contacts.filter (fun x => !(x.id == c.id)) })

/-- Embedding of `set_favorite(user, contact_id, body, db)`: fetch via
`get_contact_by_id`; if found, overwrite only `is_favorite` and commit. -/
def set_favorite (user : UserRow) (contact_id : Nat)
    (body : ContactFavoriteModel) (db : ContactsDB) :
    Option Contact × ContactsDB :=
  match get_contact_by_id user contact_id db with
  | none => (none, db)
  | some c =>
    let c' : Contact := { c with is_favorite := body.is_favorite }
    (some c',
      { db with contacts := db.contacts.map (fun x => if x.id == c.id then c' else x) })

/-! ### `src/repository/users.py` -/

/-- Embedding of `get_user_by_email(email, db)`:
`db.query(User).filter_by(email=email).first()`. -/
def get_user_by_email (email : String) (db : UsersDB) : Option UserRow :=
  db.users.find? (fun u => u.email == email)

/-- Embedding of `confirmed_email(email, db)`: looks the user up by email and executes
`user.confirmed = True` without a `None` check — when no user has that
email the attribute assignment on `None` raises `AttributeError`, which we
embed as `Except.error`. -/
def confirmed_email (email : String) (db : UsersDB) :
    Except String UsersDB :=
  match get_user_by_email email db with
  | none => Except.error "AttributeError"
  | some u =>
    Except.ok
      { users := db.users.map (fun x => if x.id == u.id then { x with confirmed := true } else x) }

/-- Embedding of `update_avatar(email, url, db)`: looks the user up by email and
executes `user.avatar = url` without a `None` check — when no user has
that email the attribute assignment on `None` raises `AttributeError`. -/
def update_avatar (email url : String) (db : UsersDB) :
    Except String (UserRow × UsersDB) :=
  match get_user_by_email email db with
  | none => Except.error "AttributeError"
  | some u =>
    let u' : UserRow := { u with avatar := some url }
    Except.ok
      (u', { users := db.users.map (fun x => if x.id == u.id then u' else x) })

/-! ### Calendar arithmetic (Python `datetime.date` semantics), needed for
the birthday-window search. -/

/-- Gregorian leap year, as `datetime`. -/
def isLeap (y : Nat) : Bool :=
  y % 4 == 0 && (y % 100 != 0 || y % 400 == 0)

/-- Days in a month of a given year. -/
def daysInMonth (y m : Nat) : Nat :=
  if m == 2 then (if isLeap y then 29 else 28)
  else if m == 4 || m == 6 || m == 9 || m == 11 then 30
  else 31

/-- The day after a given date. -/
def nextDay (d : PyDate) : PyDate :=
  if d.day < daysInMonth d.year d.month then
    { d with day := d.day + 1 }
  else if d.month < 12 then
    { year := d.year, month := d.month + 1, day := 1 }
  else
    { year := d.year + 1, month := 1, day := 1 }

/-- Embedding of `d + timedelta(days=n)`. -/
def addDays (d : PyDate) : Nat → PyDate
  | 0 => d
  | n + 1 => nextDay (addDays d n)

/-! ### Search service (`src/repository/search.py` is absent from the
sources; only its caller `src/routes/search.py` is present). -/

/-- Modelled from the spec: `src/repository/search.py`'s
`get_birthday_list(user, shift, db)` is missing from the sources; per the
spec it returns every owned contact whose birthday (month+day, ignoring
year) falls within `[today, today + shift]` inclusive, handling year
wraparound.  `today` is passed explicitly.  A contact matches when some
day of the window has its birthday's month and day. -/
def get_birthday_list (today : PyDate) (user : UserRow) (shift : Nat)
    (db : ContactsDB) : List Contact :=
  db.contacts.filter (fun c =>
    c.user_id == user.id &&
      (List.range (shift + 1)).any (fun d =>
        let t := addDays today d
        t.month == c.birthday.month && t.day == c.birthday.day))

/-- Case-insensitive lowering, as Python `str.lower()` on ASCII text. -/
def pyLower (s : String) : String :=
  String.mk (s.toList.map Char.toLower)

/-- Whether `pat` occurs at the start of `l`. -/
def startsWithChars : List Char → List Char → Bool
  | [], _ => true
  | _ :: _, [] => false
  | p :: ps, c :: cs => p == c && startsWithChars ps cs

/-- Whether `pat` occurs somewhere inside `l` (Python `pat in l`). -/
def hasSubstringChars (pat : List Char) : List Char → Bool
  | [] => pat.isEmpty
  | c :: cs => startsWithChars pat (c :: cs) || hasSubstringChars pat cs

/-- Python `text.lower() in field.lower()`. -/
def pyContains (field text : String) : Bool :=
  hasSubstringChars (pyLower text).toList (pyLower field).toList

/-- Modelled from the spec: `src/repository/search.py`'s
`get_users_by_partial_info(user, partial_info, db)` is missing from the
sources; per the spec it returns every owned contact where the text is a
case-insensitive substring of firstname OR lastname OR email OR phone. -/
def get_users_by_partial_info (user : UserRow) (partial_info : String)
    (db : ContactsDB) : List Contact :=
  db.contacts.filter (fun c =>
    c.user_id == user.id &&
      (pyContains c.firstname partial_info || pyContains c.lastname partial_info ||
        pyContains c.email partial_info || pyContains c.phone partial_info))

/-! ### `src/routes/search.py` -/

/-- The `get_birthday_list` route handler: calls the repository, raises
HTTP 404 only when the repository returned `None`, otherwise returns the
list.  The repository result is a list (possibly empty), embedded as
`some`. -/
def get_birthday_list_route (today : PyDate) (user : UserRow) (shift : Nat)
    (db : ContactsDB) : Except Nat (List Contact) :=
  match (some (get_birthday_list today user shift db) : Option (List Contact)) with
  | none => Except.error 404
  | some contacts => Except.ok contacts

/-! ### Concrete fixtures used by the witness theorems -/

/-- User A of the spec's scenarios. -/
def uA : UserRow :=
  { id := 1, email := "a@x.com", password := "pwA", refresh_token := none,
    password_reset_token := none, confirmed := true, avatar := none }

/-- User B of the spec's scenarios (different id, owns no contacts in `db0`). -/
def uB : UserRow :=
  { id := 2, email := "b@x.com", password := "pwB", refresh_token := none,
    password_reset_token := none, confirmed := true, avatar := none }

/-- A contact of user A with an early-January birthday and lastname "Smith". -/
def cAnna : Contact :=
  { id := 1, user_id := 1, firstname := "Anna", lastname := "Smith",
    email := "anna@x.com", phone := "111", birthday := ⟨1990, 1, 5⟩,
    additional_info := "", is_favorite := false }

/-- A contact of user A whose email contains "smith" as an inner substring. -/
def cBob : Contact :=
  { id := 2, user_id := 1, firstname := "Bob", lastname := "Stone",
    email := "bobsmith@x.com", phone := "222", birthday := ⟨1985, 7, 1⟩,
    additional_info := "note", is_favorite := true }

/-- A contact of user A named "Smythe", which must not match "smith". -/
def cSmythe : Contact :=
  { id := 3, user_id := 1, firstname := "Carl", lastname := "Smythe",
    email := "carl@x.com", phone := "333", birthday := ⟨1970, 12, 25⟩,
    additional_info := "", is_favorite := false }

/-- A small well-formed contacts table: three contacts, all owned by user A. -/
def db0 : ContactsDB := { contacts := [cAnna, cBob, cSmythe], next_id := 4 }

/-- Fresh field values for update round-trips. -/
def bodyNew : ContactModel :=
  { firstname := "New", lastname := "Name", email := "new@x.com",
    phone := "000", birthday := ⟨2000, 2, 29⟩, additional_info := "info",
    is_favorite := true }

/-- A favorite-flag request body. -/
def favBody : ContactFavoriteModel := { is_favorite := true }

/-- A users table containing a single user whose email is `a@x.com`. -/
def usersDB0 : UsersDB :=
  { users := [{ id := 1, email := "a@x.com", password := "pw",
                refresh_token := none, password_reset_token := none,
                confirmed := false, avatar := none }] }

/-! ### Helper lemmas -/

/-- If every element of the left list fails the predicate, `find?` over the
append is `find?` over the right list. -/
lemma find?_append_left_none {α} (p : α → Bool) (l₁ l₂ : List α)
    (h : ∀ x ∈ l₁, p x = false) : (l₁ ++ l₂).find? p = l₂.find? p := by
  rw [List.find?_append]
  have : l₁.find? p = none := by
    rw [List.find?_eq_none]
    intro x hx
    simp [h x hx]
  rw [this, Option.none_or]

/-- Replacing, by key, the row that `find?` located with a row that still
satisfies the query leaves `find?` returning the replacement, provided the
key can only hit rows satisfying the query. -/
lemma find?_replace {α} (q k : α → Bool) (c c' : α) :
    ∀ l : List α, l.find? q = some c → q c' = true → k c = true →
      (∀ x ∈ l, k x = true → q x = true) →
      (l.map fun x => if k x then c' else x).find? q = some c'
  | [], hfind, _, _, _ => by simp at hfind
  | a :: t, hfind, hqc', hkc, hk => by
    by_cases hqa : q a = true
    · have hac : a = c := by
        rw [List.find?_cons_of_pos _ hqa] at hfind
        exact Option.some.inj hfind
      subst hac
      simp only [List.map_cons, if_pos hkc]
      exact List.find?_cons_of_pos _ hqc'
    · have hka : ¬k a = true := fun hka => hqa (hk a (List.mem_cons_self a t) hka)
      rw [List.find?_cons_of_neg _ hqa] at hfind
      simp only [List.map_cons, if_neg hka]
      rw [List.find?_cons_of_neg _ hqa]
      exact find?_replace q k c c' t hfind hqc' hkc
        (fun x hx hkx => hk x (List.mem_cons_of_mem a hx) hkx)

/-- In a well-formed table, two rows with the same primary key are the same
row. -/
lemma ContactsDB.WF.id_inj {db : ContactsDB} (hWF : db.WF) {x c : Contact}
    (hx : x ∈ db.contacts) (hc : c ∈ db.contacts) (h : x.id = c.id) : x = c :=
  List.inj_on_of_nodup_map hWF.2 hx hc h

/-! ### C3, C5, C7: update / set_favorite / remove -/

/-- C3: for an existing owned contact, `update` replaces all seven mutable
fields with the input's values (id and owner kept from the old row, no
other old value survives, the stored row rewritten accordingly); for a
nonexistent or non-owned id it returns no value and leaves the table
unchanged. -/
theorem update_full_replace (user : UserRow) (cid : Nat) (body : ContactModel)
    (db : ContactsDB) :
    (∀ c, get_contact_by_id user cid db = some c →
      update user cid body db =
        (some { c with
                  firstname := body.firstname
                  lastname := body.lastname
                  email := body.email
                  phone := body.phone
                  birthday := body.birthday
                  additional_info := body.additional_info
                  is_favorite := body.is_favorite },
         { db with contacts := db.contacts.map (fun x =>
            if x.id == c.id then
              { c with
                  firstname := body.firstname
                  lastname := body.lastname
                  email := body.email
                  phone := body.phone
                  birthday := body.birthday
                  additional_info := body.additional_info
                  is_favorite := body.is_favorite }
            else x) })) ∧
    (get_contact_by_id user cid db = none →
      update user cid body db = (none, db)) := by
  constructor
  · intro c h
    simp [update, h]
  · intro h
    simp [update, h]

/-- Witness for C3 at a concrete input: contact 1 exists under user A and
is fully replaced by the new body there. -/
theorem update_full_replace_witness :
    get_contact_by_id uA 1 db0 = some cAnna ∧
    update uA 1 bodyNew db0 =
      (some { cAnna with
                firstname := bodyNew.firstname
                lastname := bodyNew.lastname
                email := bodyNew.email
                phone := bodyNew.phone
                birthday := bodyNew.birthday
                additional_info := bodyNew.additional_info
                is_favorite := bodyNew.is_favorite },
       { db0 with contacts := db0.contacts.map (fun x =>
          if x.id == cAnna.id then
            { cAnna with
                firstname := bodyNew.firstname
                lastname := bodyNew.lastname
                email := bodyNew.email
                phone := bodyNew.phone
                birthday := bodyNew.birthday
                additional_info := bodyNew.additional_info
                is_favorite := bodyNew.is_favorite }
          else x) }) :=
  ⟨by decide, (update_full_replace uA 1 bodyNew db0).1 cAnna (by decide)⟩

/-- C5: for an existing owned contact, `set_favorite` rewrites the row to
the same record with only `is_favorite` replaced (so id, owner and the
other six fields are unchanged); otherwise it is a no-op returning no
value. -/
theorem set_favorite_frame (user : UserRow) (cid : Nat)
    (body : ContactFavoriteModel) (db : ContactsDB) :
    (∀ c, get_contact_by_id user cid db = some c →
      set_favorite user cid body db =
        (some { c with is_favorite := body.is_favorite },
         { db with contacts := db.contacts.map (fun x =>
            if x.id == c.id then { c with is_favorite := body.is_favorite }
            else x) })) ∧
    (get_contact_by_id user cid db = none →
      set_favorite user cid body db = (none, db)) := by
  constructor
  · intro c h
    simp [set_favorite, h]
  · intro h
    simp [set_favorite, h]

/-- Witness for C5 at a concrete input: flipping the flag of contact 1
keeps every other field of the row. -/
theorem set_favorite_frame_witness :
    get_contact_by_id uA 1 db0 = some cAnna ∧
    set_favorite uA 1 favBody db0 =
      (some { cAnna with is_favorite := favBody.is_favorite },
       { db0 with contacts := db0.contacts.map (fun x =>
          if x.id == cAnna.id then { cAnna with is_favorite := favBody.is_favorite }
          else x) }) :=
  ⟨by decide, (set_favorite_frame uA 1 favBody db0).1 cAnna (by decide)⟩

/-- C7: removing an existing owned contact returns its snapshot, deletes
exactly that row, and a subsequent lookup of the same id by the same user
finds nothing; removing a nonexistent or non-owned id is a no-op returning
no value. -/
theorem remove_then_get_absent (user : UserRow) (cid : Nat) (db : ContactsDB) :
    (∀ c, get_contact_by_id user cid db = some c →
      remove user cid db =
        (some c,
         { db with contacts := db.contacts.filter (fun x => !(x.id == c.id)) }) ∧
      get_contact_by_id user cid (remove user cid db).2 = none) ∧
    (get_contact_by_id user cid db = none →
      remove user cid db = (none, db)) := by
  constructor
  · intro c h
    have hcid : c.id = cid := by
      have := List.find?_some h
      simp only [Bool.and_eq_true, beq_iff_eq] at this
      exact this.2
    refine ⟨by simp [remove, h], ?_⟩
    simp only [remove, h]
    unfold get_contact_by_id
    rw [List.find?_eq_none]
    intro x hx hpx
    rw [List.mem_filter] at hx
    simp only [Bool.and_eq_true, beq_iff_eq] at hpx
    have : ¬x.id = c.id := by simpa using hx.2
    exact this (hpx.2.trans hcid.symm)
  · intro h
    simp [remove, h]

/-- Witness for C7 at a concrete input: removing contact 1 under user A
returns the snapshot and the id no longer resolves. -/
theorem remove_then_get_absent_witness :
    get_contact_by_id uA 1 db0 = some cAnna ∧
    (remove uA 1 db0 =
      (some cAnna,
       { db0 with contacts := db0.contacts.filter (fun x => !(x.id == cAnna.id)) }) ∧
     get_contact_by_id uA 1 (remove uA 1 db0).2 = none) :=
  ⟨by decide, (remove_then_get_absent uA 1 db0).1 cAnna (by decide)⟩

/-! ### C1, C6, C10: ownership scoping, create round-trip, invariants -/

/-- C1: a contact stored under user A is invisible to any user B with a
different id — `get_contact_by_id` under B's identity returns no value for
that contact's id, exactly as for a nonexistent id. -/
theorem cross_user_get_absent (A B : UserRow) (db : ContactsDB) (c : Contact)
    (hWF : db.WF) (hc : c ∈ db.contacts) (hown : c.user_id = A.id)
    (hne : B.id ≠ A.id) :
    get_contact_by_id B c.id db = none := by
  unfold get_contact_by_id
  rw [List.find?_eq_none]
  intro x hx hpx
  simp only [Bool.and_eq_true, beq_iff_eq] at hpx
  have hxc : x = c := hWF.id_inj hx hc hpx.2
  exact hne (by rw [← hpx.1, hxc, hown])

/-- Witness for C1 at a concrete input: contact 1 belongs to user A, and
user B cannot see it. -/
theorem cross_user_get_absent_witness :
    db0.WF ∧ cAnna ∈ db0.contacts ∧ cAnna.user_id = uA.id ∧ uB.id ≠ uA.id ∧
    get_contact_by_id uB cAnna.id db0 = none :=
  ⟨by decide, by decide, by decide, by decide,
   cross_user_get_absent uA uB db0 cAnna (by decide) (by decide) (by decide)
     (by decide)⟩

/-- C6: `create` followed by `get_contact_by_id` on the returned id under
the same user yields exactly the created record, and that record carries
the input's seven fields plus the generated id and the caller as owner. -/
theorem create_get_roundtrip (user : UserRow) (body : ContactModel)
    (db : ContactsDB) (hWF : db.WF) :
    get_contact_by_id user (create user body db).1.id (create user body db).2
        = some (create user body db).1 ∧
    (create user body db).1 =
      { id := db.next_id
        user_id := user.id
        firstname := body.firstname
        lastname := body.lastname
        email := body.email
        phone := body.phone
        birthday := body.birthday
        additional_info := body.additional_info
        is_favorite := body.is_favorite } := by
  refine ⟨?_, rfl⟩
  show (db.contacts ++ [_]).find? _ = _
  rw [find?_append_left_none]
  · simp [create]
  · intro x hx
    simp only [create, Bool.and_eq_false_iff, beq_eq_false_iff_ne, ne_eq]
    right
    exact Nat.ne_of_lt (hWF.1 x hx)

/-- Witness for C6 at a concrete input. -/
theorem create_get_roundtrip_witness :
    db0.WF ∧
    (get_contact_by_id uA (create uA bodyNew db0).1.id (create uA bodyNew db0).2
        = some (create uA bodyNew db0).1 ∧
     (create uA bodyNew db0).1 =
      { id := db0.next_id
        user_id := uA.id
        firstname := bodyNew.firstname
        lastname := bodyNew.lastname
        email := bodyNew.email
        phone := bodyNew.phone
        birthday := bodyNew.birthday
        additional_info := bodyNew.additional_info
        is_favorite := bodyNew.is_favorite }) :=
  ⟨by decide, create_get_roundtrip uA bodyNew db0 (by decide)⟩

/-- C10: `create` stamps the caller's id as owner (appending one row and
keeping every existing row's identity and owner), and `update` and
`set_favorite` preserve the id and owner of every stored row, so contacts
keep belonging to the user who created them. -/
theorem ownership_preserved (user : UserRow) (cid : Nat) (body : ContactModel)
    (fav : ContactFavoriteModel) (db : ContactsDB) (hWF : db.WF) :
    (create user body db).1.user_id = user.id ∧
    (create user body db).2.contacts.map (fun c => (c.id, c.user_id))
      = db.contacts.map (fun c => (c.id, c.user_id)) ++ [(db.next_id, user.id)] ∧
    (update user cid body db).2.contacts.map (fun c => (c.id, c.user_id))
      = db.contacts.map (fun c => (c.id, c.user_id)) ∧
    (set_favorite user cid fav db).2.contacts.map (fun c => (c.id, c.user_id))
      = db.contacts.map (fun c => (c.id, c.user_id)) := by
  refine ⟨rfl, by simp [create], ?_, ?_⟩
  · unfold update
    cases h : get_contact_by_id user cid db with
    | none => rfl
    | some c =>
      have hcmem : c ∈ db.contacts := List.mem_of_find?_eq_some h
      simp only [List.map_map]
      apply List.map_congr_left
      intro x hx
      by_cases hid : (x.id == c.id) = true
      · have hxc : x = c := hWF.id_inj hx hcmem (by simpa using hid)
        simp [hxc, hid]
      · have hne : ¬x.id = c.id := by simpa using hid
        simp [hne]
  · unfold set_favorite
    cases h : get_contact_by_id user cid db with
    | none => rfl
    | some c =>
      have hcmem : c ∈ db.contacts := List.mem_of_find?_eq_some h
      simp only [List.map_map]
      apply List.map_congr_left
      intro x hx
      by_cases hid : (x.id == c.id) = true
      · have hxc : x = c := hWF.id_inj hx hcmem (by simpa using hid)
        simp [hxc, hid]
      · have hne : ¬x.id = c.id := by simpa using hid
        simp [hne]

/-- Witness for C10 at a concrete input. -/
theorem ownership_preserved_witness :
    db0.WF ∧
    ((create uA bodyNew db0).1.user_id = uA.id ∧
     (create uA bodyNew db0).2.contacts.map (fun c => (c.id, c.user_id))
       = db0.contacts.map (fun c => (c.id, c.user_id)) ++ [(db0.next_id, uA.id)] ∧
     (update uA 1 bodyNew db0).2.contacts.map (fun c => (c.id, c.user_id))
       = db0.contacts.map (fun c => (c.id, c.user_id)) ∧
     (set_favorite uA 1 favBody db0).2.contacts.map (fun c => (c.id, c.user_id))
       = db0.contacts.map (fun c => (c.id, c.user_id))) :=
  ⟨by decide, ownership_preserved uA 1 bodyNew favBody db0 (by decide)⟩

/-! ### C4: absence handling in the user-persistence operations -/

/-- C4 (failing evaluation): with a users table that has no row for the
given email, `confirmed_email` and `update_avatar` do not return a
no-value result — the lookup yields `None` and the subsequent attribute
assignment raises `AttributeError`, contradicting the absence-as-value
policy. -/
theorem users_ops_raise_on_missing_email :
    get_user_by_email "ghost@example.com" usersDB0 = none ∧
    confirmed_email "ghost@example.com" usersDB0
      = Except.error "AttributeError" ∧
    update_avatar "ghost@example.com" "http://img/av.png" usersDB0
      = Except.error "AttributeError" := by
  refine ⟨by decide, ?_, ?_⟩
  · rw [confirmed_email, show get_user_by_email "ghost@example.com" usersDB0 = none from by decide]
  · rw [update_avatar, show get_user_by_email "ghost@example.com" usersDB0 = none from by decide]

/-! ### C9: empty birthday window is a normal value, not a 404 -/

/-- C9: the birthday route only raises 404 when the repository lookup
yields no value; the repository always yields a list, so the route returns
`ok` of that list, and in particular `ok []` when no owned contact falls
in the window. -/
theorem birthday_route_empty_ok (today : PyDate) (user : UserRow)
    (shift : Nat) (db : ContactsDB)
    (h : ∀ c ∈ db.contacts, c.user_id = user.id →
      ∀ d ≤ shift, ¬((addDays today d).month = c.birthday.month ∧
        (addDays today d).day = c.birthday.day)) :
    get_birthday_list_route today user shift db
        = Except.ok (get_birthday_list today user shift db) ∧
    get_birthday_list_route today user shift db = Except.ok [] := by
  refine ⟨rfl, ?_⟩
  suffices hnil : get_birthday_list today user shift db = [] by
    rw [get_birthday_list_route, hnil]
  rw [get_birthday_list, List.filter_eq_nil_iff]
  intro c hc hp
  rw [Bool.and_eq_true, beq_iff_eq] at hp
  obtain ⟨hown, hany⟩ := hp
  rw [List.any_eq_true] at hany
  obtain ⟨d, hd, hmatch⟩ := hany
  rw [List.mem_range, Nat.lt_succ_iff] at hd
  simp only [Bool.and_eq_true, beq_iff_eq] at hmatch
  exact h c hc hown d hd hmatch

/-- Witness for C9 at a concrete input: user B owns nothing in `db0`, so
the route answers `ok []` rather than a 404. -/
theorem birthday_route_empty_ok_witness :
    get_birthday_list_route ⟨2023, 12, 20⟩ uB 10 db0
        = Except.ok (get_birthday_list ⟨2023, 12, 20⟩ uB 10 db0) ∧
    get_birthday_list_route ⟨2023, 12, 20⟩ uB 10 db0 = Except.ok [] :=
  birthday_route_empty_ok ⟨2023, 12, 20⟩ uB 10 db0 (by decide)

/-! ### C8: partial match is case-insensitive substring search -/

/-- Characterization of `startsWithChars`: the pattern is an exact leading
segment. -/
lemma startsWithChars_iff : ∀ (pat l : List Char),
    startsWithChars pat l = true ↔ ∃ t, l = pat ++ t
  | [], l => by simp [startsWithChars]
  | p :: ps, [] => by simp [startsWithChars]
  | p :: ps, c :: cs => by
    rw [startsWithChars, Bool.and_eq_true, beq_iff_eq,
      startsWithChars_iff ps cs]
    constructor
    · rintro ⟨rfl, t, rfl⟩
      exact ⟨t, rfl⟩
    · rintro ⟨t, ht⟩
      rw [List.cons_append] at ht
      exact ⟨(List.cons.injEq .. ▸ ht).1.symm ▸ rfl,
        t, (List.cons.injEq .. ▸ ht).2⟩

/-- Characterization of `hasSubstringChars`: the pattern occurs between
two (possibly empty) stretches. -/
lemma hasSubstringChars_iff : ∀ (pat l : List Char),
    hasSubstringChars pat l = true ↔ ∃ l₁ l₂, l = l₁ ++ pat ++ l₂
  | pat, [] => by
    rw [hasSubstringChars, List.isEmpty_iff]
    constructor
    · rintro rfl
      exact ⟨[], [], rfl⟩
    · rintro ⟨l₁, l₂, h⟩
      rcases List.append_eq_nil.mp (List.append_eq_nil.mp h.symm).1 with ⟨-, h2⟩
      exact h2
  | pat, c :: cs => by
    rw [hasSubstringChars, Bool.or_eq_true, startsWithChars_iff,
      hasSubstringChars_iff pat cs]
    constructor
    · rintro (⟨t, ht⟩ | ⟨l₁, l₂, h⟩)
      · exact ⟨[], t, by simp [ht]⟩
      · exact ⟨c :: l₁, l₂, by simp [h]⟩
    · rintro ⟨l₁, l₂, h⟩
      cases l₁ with
      | nil =>
        left
        exact ⟨l₂, by simpa using h⟩
      | cons a l₁ =>
        right
        rw [List.cons_append, List.cons_append] at h
        exact ⟨l₁, l₂, (List.cons.injEq .. ▸ h).2⟩

/-- C8: `partial_match` returns exactly the owned contacts in which the
lowered text occurs inside the lowered firstname, lastname, email or
phone; concretely, "smith" matches lastname "Smith" and email
"bobsmith@x.com" but not lastname "Smythe". -/
theorem partial_match_correct :
    (∀ (user : UserRow) (text : String) (db : ContactsDB) (c : Contact),
      c ∈ get_users_by_partial_info user text db ↔
        c ∈ db.contacts ∧ c.user_id = user.id ∧
          ((∃ l₁ l₂, (pyLower c.firstname).toList
              = l₁ ++ (pyLower text).toList ++ l₂) ∨
           (∃ l₁ l₂, (pyLower c.lastname).toList
              = l₁ ++ (pyLower text).toList ++ l₂) ∨
           (∃ l₁ l₂, (pyLower c.email).toList
              = l₁ ++ (pyLower text).toList ++ l₂) ∨
           (∃ l₁ l₂, (pyLower c.phone).toList
              = l₁ ++ (pyLower text).toList ++ l₂))) ∧
    (cAnna ∈ get_users_by_partial_info uA "smith" db0 ∧
     cBob ∈ get_users_by_partial_info uA "smith" db0 ∧
     cSmythe ∉ get_users_by_partial_info uA "smith" db0) := by
  constructor
  · intro user text db c
    rw [get_users_by_partial_info, List.mem_filter]
    simp only [Bool.and_eq_true, beq_iff_eq, Bool.or_eq_true, pyContains,
      hasSubstringChars_iff, and_assoc, or_assoc]
  · refine ⟨by decide, by decide, by decide⟩

/-! ### C2: the birthday window -/

set_option maxRecDepth 20000 in
/-- C2: `birthday_window` returns exactly the owned contacts whose
birthday month and day (year ignored) coincide with some day of
`[today, today + shift]`; concretely, the window of 40 days from
2023-12-20 crosses the year boundary and includes the contact whose
birthday is January 5. -/
theorem birthday_window_correct :
    (∀ (today : PyDate) (user : UserRow) (shift : Nat) (db : ContactsDB)
        (c : Contact),
      c ∈ get_birthday_list today user shift db ↔
        c ∈ db.contacts ∧ c.user_id = user.id ∧
          ∃ d ≤ shift, (addDays today d).month = c.birthday.month ∧
            (addDays today d).day = c.birthday.day) ∧
    cAnna ∈ get_birthday_list ⟨2023, 12, 20⟩ uA 40 db0 := by
  constructor
  · intro today user shift db c
    rw [get_birthday_list, List.mem_filter]
    simp only [Bool.and_eq_true, beq_iff_eq, List.any_eq_true,
      List.mem_range, Nat.lt_succ_iff, and_assoc]
  · decide

end ContactsApp
